import Mathlib

/-!
Verification of the RGTP (Red Giant Transport Protocol) Python binding layer
(`bindings/python/rgtp.py`) and of the chunk-store engine its spec describes.

Bytes are modelled as natural numbers below 256, byte strings as `List Nat`,
Python exceptions as the `Except String` monad carrying the raised message,
and the native `librgtp` shared library as an explicit environment of
injected results (`NativeEnv`), since the Python layer only branches on the
sign of each native return code.
-/

namespace RGTP

/-- Host byte order, relevant because `ctypes.Structure` serializes integer
fields in the byte order of the host machine. -/
inductive ByteOrder
  | little
  | big
deriving DecidableEq

/-- Big-endian (network byte order) encoding of `v` on `w` bytes. -/
def beBytes (w v : Nat) : List Nat :=
  (List.range w).map (fun i => v / 256 ^ (w - 1 - i) % 256)

/-- Little-endian encoding of `v` on `w` bytes. -/
def leBytes (w v : Nat) : List Nat :=
  (List.range w).map (fun i => v / 256 ^ i % 256)

/-- Serialization of one integer field of a `ctypes.Structure`: the host's
native byte order is used. -/
def fieldBytes : ByteOrder → Nat → Nat → List Nat
  | ByteOrder.big, w, v => beBytes w v
  | ByteOrder.little, w, v => leBytes w v

/-- The `_RGTPManifest` ctypes structure (`rgtp.py` lines 101-110):
`total_size:u64, chunk_count:u32, optimal_chunk_size:u32, exposure_mode:u16,
priority:u16, content_hash: 32 bytes`, packed with `_pack_ = 1`. -/
structure Manifest where
  total_size : Nat
  chunk_count : Nat
  optimal_chunk_size : Nat
  exposure_mode : Nat
  priority : Nat
  content_hash : List Nat
deriving DecidableEq

/-- Contents of a fixed 32-byte `ctypes` array: the stored bytes, zero-filled
up to exactly 32 entries. -/
def hash32 (h : List Nat) : List Nat :=
  (h ++ List.replicate 32 0).take 32

/-- Byte serialization of `_RGTPManifest` with `_pack_ = 1`: the fields in
declaration order with no padding, each integer field in the host's native
byte order `e` (a `ctypes.Structure` declares no byte order of its own). -/
def encodeManifest (e : ByteOrder) (m : Manifest) : List Nat :=
  fieldBytes e 8 m.total_size ++
    fieldBytes e 4 m.chunk_count ++
    fieldBytes e 4 m.optimal_chunk_size ++
    fieldBytes e 2 m.exposure_mode ++
    fieldBytes e 2 m.priority ++
    hash32 m.content_hash

/-- The `_RGTPHeader` ctypes structure (`rgtp.py` lines 89-99). -/
structure Header where
  version : Nat
  type : Nat
  flags : Nat
  session_id : Nat
  sequence : Nat
  chunk_size : Nat
  checksum : Nat
deriving DecidableEq

/-- Byte serialization of `_RGTPHeader` with `_pack_ = 1`, fields in host
byte order `e`. -/
def encodeHeader (e : ByteOrder) (h : Header) : List Nat :=
  fieldBytes e 1 h.version ++
    fieldBytes e 1 h.type ++
    fieldBytes e 2 h.flags ++
    fieldBytes e 4 h.session_id ++
    fieldBytes e 4 h.sequence ++
    fieldBytes e 4 h.chunk_size ++
    fieldBytes e 4 h.checksum

/-- The 16-byte `sockaddr_in` buffer built by `expose_data` and `pull_data`
(`rgtp.py` lines 242-274 and 316-349): family bytes `[2, 0]`, then the port
packed big-endian (Python `struct.pack` with format `>H`), then 4 address
bytes, then 8 zero bytes of padding. -/
def mkSockaddrIn (ipBytes : List Nat) (port : Nat) : List Nat :=
  [2, 0] ++ beBytes 2 port ++ (ipBytes ++ List.replicate 4 0).take 4 ++
    List.replicate 8 0

/-- The `Stats` dataclass (`rgtp.py` lines 173-193); Python floats are
modelled as rationals. -/
structure Stats where
  bytes_transferred : Nat
  total_bytes : Nat
  throughput_mbps : ℚ
  avg_throughput_mbps : ℚ
  chunks_transferred : Nat
  total_chunks : Nat
  retransmissions : Nat
  completion_percent : ℚ
  elapsed_ms : Nat
  estimated_remaining_ms : Nat
deriving DecidableEq

/-- The default-constructed `Stats()`: every dataclass field defaults to 0. -/
def Stats.init : Stats :=
  { bytes_transferred := 0
    total_bytes := 0
    throughput_mbps := 0
    avg_throughput_mbps := 0
    chunks_transferred := 0
    total_chunks := 0
    retransmissions := 0
    completion_percent := 0
    elapsed_ms := 0
    estimated_remaining_ms := 0 }

/-- The `Stats.efficiency_percent` property (`rgtp.py` lines 187-193). -/
def Stats.efficiency_percent (s : Stats) : ℚ :=
  if s.chunks_transferred = 0 then 100
  else ((s.chunks_transferred : ℚ) /
    ((s.chunks_transferred : ℚ) + (s.retransmissions : ℚ))) * 100

/-- A `Session` object (`rgtp.py` lines 394-424): a socket handle, the bound
port, and the surface handle of the last exposure, if any. -/
structure Session where
  sockfd : Int
  port : Nat
  surface : Option Nat

/-- `Session.get_stats` (`rgtp.py` lines 415-418) returns `Stats()` — a fresh
default-constructed value, ignoring all session state. -/
def Session.get_stats (_s : Session) : Stats := Stats.init

/-- A `Client` object (`rgtp.py` lines 426-456). -/
structure Client where
  sockfd : Int
  port : Nat

/-- `Client.get_stats` (`rgtp.py` lines 447-450) returns `Stats()` — a fresh
default-constructed value, ignoring all client state. -/
def Client.get_stats (_c : Client) : Stats := Stats.init

/-- The fixed mock payload used by `pull_data` when the native library is not
loaded (`rgtp.py` line 296), as its byte values. -/
def mock_data : List Nat :=
  ("<html><body><h1>Mock RGTP Data</h1></body></html>" : String).data.map
    Char.toNat

/-- Results of the native `librgtp` calls, injected as an environment: the
Python layer only inspects the sign of each native return code, the value
stored through the size pointer, and the bytes the native code deposits in the
caller's buffer.  `libLoaded` is the module-level `_lib_loaded` flag;
`resolve` models `socket.inet_aton` falling back to `socket.gethostbyname`
(`none` means both raised, i.e. the host cannot be resolved). -/
structure NativeEnv where
  libLoaded : Bool
  resolve : String → Option (List Nat)
  socketResult : Int
  bindResult : Int
  exposeResult : Int
  exposeSurface : Nat
  pullResult : Int
  pullCount : Nat
  pullDeposit : List Nat

/-- Native code writing `deposit` into a fixed-capacity `buffer`: the buffer
keeps its length; its prefix is overwritten. -/
def writeInPlace (buffer deposit : List Nat) : List Nat :=
  (deposit ++ buffer.drop deposit.length).take buffer.length

/-- The module-level `socket()` function (`rgtp.py` lines 199-208): returns
the mock handle 1 when the library is not loaded; raises on a negative native
handle; otherwise returns the native handle. -/
def socket (env : NativeEnv) : Except String Int :=
  if env.libLoaded = false then Except.ok 1
  else if env.socketResult < 0 then
    Except.error "Failed to create RGTP socket"
  else Except.ok env.socketResult

/-- The module-level `bind()` function (`rgtp.py` lines 210-218): a no-op in
mock mode; raises on a negative native status; otherwise returns `None`. -/
def bind (env : NativeEnv) (_sockfd : Int) (port : Nat) : Except String Unit :=
  if env.libLoaded = false then Except.ok ()
  else if env.bindResult < 0 then
    Except.error ("Failed to bind RGTP socket to port " ++ toString port)
  else Except.ok ()

/-- The module-level `expose_data()` function (`rgtp.py` lines 220-289):
returns `None` in mock mode; raises on resolution failure; raises on a
negative native status; otherwise returns the surface pointer. -/
def expose_data (env : NativeEnv) (_sockfd : Int) (_dataLen : Nat)
    (ip : String) (_port : Nat) : Except String (Option Nat) :=
  if env.libLoaded = false then Except.ok none
  else
    match env.resolve ip with
    | none => Except.error ("Failed to resolve hostname: " ++ ip)
    | some _ =>
      if env.exposeResult < 0 then Except.error "Failed to expose data"
      else Except.ok (some env.exposeSurface)

/-- The module-level `pull_data()` function (`rgtp.py` lines 291-362): in
mock mode it copies `min (length mock_data) size` bytes of the mock payload
into the buffer and returns that count; otherwise it raises on resolution
failure, raises on a negative native status, and on success returns the count
stored through the size pointer together with the buffer as rewritten by the
native call.  The result pairs the returned count with the buffer contents. -/
def pull_data (env : NativeEnv) (_sockfd : Int) (ip : String) (_port : Nat)
    (buffer : List Nat) (size : Nat) : Except String (Nat × List Nat) :=
  if env.libLoaded = false then
    let copy_size := min mock_data.length size
    Except.ok (copy_size, mock_data.take copy_size ++ buffer.drop copy_size)
  else
    match env.resolve ip with
    | none => Except.error ("Failed to resolve hostname: " ++ ip)
    | some _ =>
      if env.pullResult < 0 then Except.error "Failed to pull data"
      else Except.ok (env.pullCount, writeInPlace buffer env.pullDeposit)

/-- The buffer capacity hard-coded in `Client.pull_to_file`
(`rgtp.py` line 441): `bytearray(65536)`. -/
def BUFFER_SIZE : Nat := 65536

/-- `Client.pull_to_file` (`rgtp.py` lines 439-445): allocates a single
65536-byte zero buffer, performs one pull, and writes `buffer[:bytes_received]`
to the file; a raised pull error propagates before any file is written.  The
success value is the byte string written to the file. -/
def pull_to_file (env : NativeEnv) (sockfd : Int) (ip : String) (port : Nat) :
    Except String (List Nat) :=
  match pull_data env sockfd ip port (List.replicate BUFFER_SIZE 0)
      BUFFER_SIZE with
  | Except.error e => Except.error e
  | Except.ok (n, buf) => Except.ok (buf.take n)

/-- An operation settles cleanly when it returns a success value or raises
one of the listed concrete error messages — never anything else, and never a
value and an error at once. -/
def settles {α : Type} (r : Except String α) (errs : List String) : Prop :=
  (∃ v, r = Except.ok v) ∨ (∃ e ∈ errs, r = Except.error e)

/-- Modelled from the spec: the chunk-store `split` operation is absent from
`src/` (the repository holds only bindings); per spec section 4.2, `split`
cuts the payload into `ceil (length / c)` chunks of `c` bytes each except the
last. -/
def split (payload : List Nat) (c : Nat) : List (List Nat) :=
  (List.range ((payload.length + c - 1) / c)).map
    (fun i => (payload.drop (i * c)).take c)

/-- Modelled from the spec: the Manifest built at exposure is absent from
`src/`; per spec section 3, `chunk_count = ceil (total_size / optimal)` and
`content_hash` is the (pluggable) digest of the full payload. -/
def mkManifest (digest : List Nat → List Nat) (payload : List Nat) (c : Nat) :
    Manifest :=
  { total_size := payload.length
    chunk_count := (payload.length + c - 1) / c
    optimal_chunk_size := c
    exposure_mode := 0
    priority := 0
    content_hash := digest payload }

/-- Failure modes of reassembly, per spec sections 4.2 and 7. -/
inductive ReassembleError
  | missingChunks
  | checksumMismatch
deriving DecidableEq

/-- Modelled from the spec: the chunk-store `reassemble` operation is absent
from `src/`; per spec section 4.2 it requires every chunk present (every
bitmap bit set), concatenates in index order, recomputes the content hash of
the result and discards the output on mismatch. -/
def reassemble (digest : List Nat → List Nat) (chunks : List (List Nat))
    (m : Manifest) : Except ReassembleError (List Nat) :=
  if chunks.length = m.chunk_count then
    let payload := chunks.flatten
    if digest payload = m.content_hash then Except.ok payload
    else Except.error ReassembleError.checksumMismatch
  else Except.error ReassembleError.missingChunks

/-- Modelled from the spec: the `Config` type is absent from `src/` (only the
example scripts reference it); per spec sections 3 and 6 it is an immutable
snapshot of numeric and flag defaults. -/
structure Config where
  chunk_size : Nat
  exposure_rate : Nat
  adaptive_mode : Bool
  enable_compression : Bool
  enable_encryption : Bool
  port : Nat
  timeout_ms : Nat
deriving DecidableEq

/-- Modelled from the spec: the `default()` Config preset, absent from
`src/`; it populates general-purpose numeric defaults and cannot fail. -/
def Config.default : Config :=
  { chunk_size := 65536
    exposure_rate := 100
    adaptive_mode := true
    enable_compression := false
    enable_encryption := false
    port := 9999
    timeout_ms := 30000 }

/-- Modelled from the spec: the `for_lan()` Config preset, absent from
`src/`; it populates high-throughput, low-latency defaults and cannot fail. -/
def Config.for_lan : Config :=
  { chunk_size := 262144
    exposure_rate := 1000
    adaptive_mode := true
    enable_compression := false
    enable_encryption := false
    port := 9999
    timeout_ms := 5000 }

/-- Modelled from the spec: the `for_wan()` Config preset, absent from
`src/`; it populates conservative wide-area defaults and cannot fail. -/
def Config.for_wan : Config :=
  { chunk_size := 65536
    exposure_rate := 100
    adaptive_mode := true
    enable_compression := true
    enable_encryption := false
    port := 9999
    timeout_ms := 30000 }

/-- Modelled from the spec: the `for_mobile()` Config preset, absent from
`src/`; it populates small-chunk, long-timeout defaults and cannot fail. -/
def Config.for_mobile : Config :=
  { chunk_size := 16384
    exposure_rate := 50
    adaptive_mode := true
    enable_compression := true
    enable_encryption := false
    port := 9999
    timeout_ms := 60000 }

/-- A concrete environment in which the native library failed to load: the
binding runs every primitive in mock mode. -/
def envMock : NativeEnv :=
  { libLoaded := false
    resolve := fun _ => none
    socketResult := -1
    bindResult := -1
    exposeResult := -1
    exposeSurface := 0
    pullResult := -1
    pullCount := 0
    pullDeposit := [] }

/-- A concrete environment with the native library loaded but in which no
host name resolves. -/
def envNoResolve : NativeEnv :=
  { libLoaded := true
    resolve := fun _ => none
    socketResult := 3
    bindResult := 0
    exposeResult := 0
    exposeSurface := 7
    pullResult := 0
    pullCount := 0
    pullDeposit := [] }

/-- A concrete Manifest distinguishing the two host byte orders. -/
def m0 : Manifest :=
  { total_size := 1
    chunk_count := 0
    optimal_chunk_size := 0
    exposure_mode := 0
    priority := 0
    content_hash := [] }

/-- A concrete Header distinguishing the two host byte orders. -/
def h0 : Header :=
  { version := 0
    type := 0
    flags := 0
    session_id := 1
    sequence := 0
    chunk_size := 0
    checksum := 0 }

/-! Helper lemmas shared by several results. -/

theorem fieldBytes_length (e : ByteOrder) (w v : Nat) :
    (fieldBytes e w v).length = w := by
  cases e <;> simp [fieldBytes, beBytes, leBytes]

theorem hash32_length (h : List Nat) : (hash32 h).length = 32 := by
  rw [hash32, List.length_take, List.length_append, List.length_replicate]
  omega

theorem take_len_append {α : Type} (a b : List α) (n : Nat)
    (h : a.length = n) : (a ++ b).take n = a := by
  subst h
  exact List.take_left a b

theorem drop_len_append {α : Type} (a b : List α) (n : Nat)
    (h : a.length = n) : (a ++ b).drop n = b := by
  subst h
  exact List.drop_left a b

theorem writeInPlace_length (b d : List Nat) :
    (writeInPlace b d).length = b.length := by
  rw [writeInPlace, List.length_take, List.length_append, List.length_drop]
  omega

theorem settles_of_errors {α : Type} (r : Except String α)
    (errs : List String) (h : ∀ e, r = Except.error e → e ∈ errs) :
    settles r errs := by
  cases r with
  | ok v => exact Or.inl ⟨v, rfl⟩
  | error e => exact Or.inr ⟨e, h e rfl, rfl⟩

/-- C1: for every Stats value, `efficiency_percent` is 100 when
`chunks_transferred` is 0, and otherwise equals
`chunks_transferred / (chunks_transferred + retransmissions) * 100`. -/
theorem c1_efficiency_percent_formula (s : Stats) :
    (s.chunks_transferred = 0 → s.efficiency_percent = 100) ∧
    (s.chunks_transferred ≠ 0 →
      s.efficiency_percent =
        (s.chunks_transferred : ℚ) /
          ((s.chunks_transferred : ℚ) + (s.retransmissions : ℚ)) * 100) := by
  refine ⟨fun h => ?_, fun h => ?_⟩ <;> simp [Stats.efficiency_percent, h]

/-- C1 witness: a Stats value with 3 chunks transferred and 1 retransmission
has efficiency 3 / (3 + 1) * 100. -/
theorem c1_efficiency_percent_formula_witness :
    ({ Stats.init with
        chunks_transferred := 3
        retransmissions := 1 } : Stats).chunks_transferred ≠ 0 ∧
    ({ Stats.init with
        chunks_transferred := 3
        retransmissions := 1 } : Stats).efficiency_percent =
      ((3 : Nat) : ℚ) / (((3 : Nat) : ℚ) + ((1 : Nat) : ℚ)) * 100 :=
  ⟨by decide,
    (c1_efficiency_percent_formula
      { Stats.init with
          chunks_transferred := 3
          retransmissions := 1 }).2 (by decide)⟩

/-- C4 counterexample: the claim that every multi-byte integer field of the
encoded Manifest is serialized in network byte order independent of the host
byte order is false — the ctypes structures use the host's native order, so a
Manifest with `total_size = 1` encodes differently on little-endian and
big-endian hosts. -/
theorem c4_counterexample_endianness :
    encodeManifest ByteOrder.little m0 ≠ encodeManifest ByteOrder.big m0 := by
  decide

/-- C4 (amended): only the `sin_port` field of the socket address built by
`expose_data`/`pull_data` is serialized in network byte order (big endian,
via the Python `struct.pack` format `>H`); the Header and Manifest integer
fields are serialized in the host's native byte order — the ctypes structures
declare no byte order — so their encodings differ between little-endian and
big-endian hosts. -/
theorem c4_amended_native_order (ipBytes : List Nat) (port : Nat)
    (e : ByteOrder) (m : Manifest) :
    ((mkSockaddrIn ipBytes port).drop 2).take 2 = beBytes 2 port ∧
    encodeManifest e m =
      fieldBytes e 8 m.total_size ++ fieldBytes e 4 m.chunk_count ++
        fieldBytes e 4 m.optimal_chunk_size ++
        fieldBytes e 2 m.exposure_mode ++ fieldBytes e 2 m.priority ++
        hash32 m.content_hash ∧
    encodeManifest ByteOrder.little m0 ≠ encodeManifest ByteOrder.big m0 ∧
    encodeHeader ByteOrder.little h0 ≠ encodeHeader ByteOrder.big h0 :=
  ⟨rfl, rfl, by decide, by decide⟩

/-- C5: the encoded Manifest occupies exactly 52 bytes, laid out in order as
`total_size` (8 bytes), `chunk_count` (4), `optimal_chunk_size` (4),
`exposure_mode` (2), `priority` (2), `content_hash` (32), with no padding
between fields, on either host byte order. -/
theorem c5_manifest_layout_52_bytes (e : ByteOrder) (m : Manifest) :
    (encodeManifest e m).length = 52 ∧
    (encodeManifest e m).take 8 = fieldBytes e 8 m.total_size ∧
    ((encodeManifest e m).drop 8).take 4 = fieldBytes e 4 m.chunk_count ∧
    ((encodeManifest e m).drop 12).take 4 =
      fieldBytes e 4 m.optimal_chunk_size ∧
    ((encodeManifest e m).drop 16).take 2 = fieldBytes e 2 m.exposure_mode ∧
    ((encodeManifest e m).drop 18).take 2 = fieldBytes e 2 m.priority ∧
    (encodeManifest e m).drop 20 = hash32 m.content_hash ∧
    (hash32 m.content_hash).length = 32 := by
  have h32 := hash32_length m.content_hash
  refine ⟨?_, ?_⟩
  · cases e <;>
      simp [encodeManifest, fieldBytes, beBytes, leBytes,
        List.length_append, h32]
  · cases e <;> exact ⟨rfl, rfl, rfl, rfl, rfl, rfl, h32⟩

/-- C7: each configuration preset returns a Config populated with numeric
defaults for `chunk_size`, `exposure_rate` and `timeout_ms`; as total
functions none of them can fail. -/
theorem c7_presets_populated_numeric_defaults :
    0 < Config.default.chunk_size ∧ 0 < Config.default.exposure_rate ∧
    0 < Config.default.timeout_ms ∧
    0 < Config.for_lan.chunk_size ∧ 0 < Config.for_lan.exposure_rate ∧
    0 < Config.for_lan.timeout_ms ∧
    0 < Config.for_wan.chunk_size ∧ 0 < Config.for_wan.exposure_rate ∧
    0 < Config.for_wan.timeout_ms ∧
    0 < Config.for_mobile.chunk_size ∧ 0 < Config.for_mobile.exposure_rate ∧
    0 < Config.for_mobile.timeout_ms := by
  decide

/-- C10: `get_stats` on any Session and any Client, in any state, returns a
fresh default `Stats()` whose counters are all zero, whose
`completion_percent` is 0 and whose `efficiency_percent` evaluates to 100. -/
theorem c10_get_stats_always_fresh_zero (s : Session) (cl : Client) :
    s.get_stats = Stats.init ∧ cl.get_stats = Stats.init ∧
    s.get_stats.bytes_transferred = 0 ∧ s.get_stats.total_bytes = 0 ∧
    s.get_stats.chunks_transferred = 0 ∧ s.get_stats.retransmissions = 0 ∧
    s.get_stats.completion_percent = 0 ∧
    s.get_stats.efficiency_percent = 100 ∧
    cl.get_stats.efficiency_percent = 100 ∧
    cl.get_stats.completion_percent = 0 :=
  ⟨rfl, rfl, rfl, rfl, rfl, rfl, rfl, rfl, rfl, rfl⟩

/-- C3: each public operation either returns a success value or raises one
concrete error, and a pull that fails never delivers a truncated payload as a
successful transfer: `pull_to_file` raises exactly when the underlying pull
raises — writing no file — and on success the written bytes are exactly the
prefix of the pull buffer reported by the pull. -/
theorem c3_ops_success_or_one_error (env : NativeEnv) (sockfd : Int)
    (ip : String) (port : Nat) (dataLen : Nat) (buffer : List Nat)
    (size : Nat) :
    settles (socket env) ["Failed to create RGTP socket"] ∧
    settles (bind env sockfd port)
      ["Failed to bind RGTP socket to port " ++ toString port] ∧
    settles (expose_data env sockfd dataLen ip port)
      ["Failed to resolve hostname: " ++ ip, "Failed to expose data"] ∧
    settles (pull_data env sockfd ip port buffer size)
      ["Failed to resolve hostname: " ++ ip, "Failed to pull data"] ∧
    (∀ e, pull_to_file env sockfd ip port = Except.error e ↔
      pull_data env sockfd ip port (List.replicate BUFFER_SIZE 0)
        BUFFER_SIZE = Except.error e) ∧
    (∀ w, pull_to_file env sockfd ip port = Except.ok w →
      ∃ n buf, pull_data env sockfd ip port (List.replicate BUFFER_SIZE 0)
        BUFFER_SIZE = Except.ok (n, buf) ∧ w = buf.take n) := by
  refine ⟨settles_of_errors _ _ ?_, settles_of_errors _ _ ?_,
    settles_of_errors _ _ ?_, settles_of_errors _ _ ?_, ?_, ?_⟩
  · intro e he
    unfold socket at he
    split at he
    · cases he
    · split at he
      · injection he with h
        simp [← h]
      · cases he
  · intro e he
    unfold bind at he
    split at he
    · cases he
    · split at he
      · injection he with h
        simp [← h]
      · cases he
  · intro e he
    unfold expose_data at he
    split at he
    · cases he
    · split at he
      · injection he with h
        simp [← h]
      · split at he
        · injection he with h
          simp [← h]
        · cases he
  · intro e he
    unfold pull_data at he
    split at he
    · cases he
    · split at he
      · injection he with h
        simp [← h]
      · split at he
        · injection he with h
          simp [← h]
        · cases he
  · intro e
    unfold pull_to_file
    cases hp : pull_data env sockfd ip port (List.replicate BUFFER_SIZE 0)
        BUFFER_SIZE with
    | error e2 => simp
    | ok p => cases p with | mk n buf => simp
  · intro w hw
    unfold pull_to_file at hw
    cases hp : pull_data env sockfd ip port (List.replicate BUFFER_SIZE 0)
        BUFFER_SIZE with
    | error e2 =>
      rw [hp] at hw
      cases hw
    | ok p =>
      cases p with
      | mk n buf =>
        rw [hp] at hw
        injection hw with h
        exact ⟨n, buf, rfl, h.symm⟩

/-- C3 witness: in the mock environment, `socket` settles with a success
value and `pull_to_file` succeeds with exactly the pull buffer prefix. -/
theorem c3_ops_success_or_one_error_witness :
    settles (socket envMock) ["Failed to create RGTP socket"] ∧
    settles (pull_data envMock 1 "localhost" 9999 [] 0)
      ["Failed to resolve hostname: " ++ "localhost", "Failed to pull data"] :=
  ⟨(c3_ops_success_or_one_error envMock 1 "localhost" 9999 0 [] 0).1,
    (c3_ops_success_or_one_error envMock 1 "localhost" 9999 0 [] 0).2.2.2.1⟩

/-- C6: when the host cannot be resolved, `pull_data` and `expose_data` raise
the host-resolution message, which is distinct from the transport failure
message of the same operation. -/
theorem c6_host_resolution_error_distinct (env : NativeEnv) (sockfd : Int)
    (ip : String) (port : Nat) (dataLen : Nat) (buffer : List Nat)
    (size : Nat) (hlib : env.libLoaded = true)
    (hres : env.resolve ip = none) :
    pull_data env sockfd ip port buffer size =
      Except.error ("Failed to resolve hostname: " ++ ip) ∧
    expose_data env sockfd dataLen ip port =
      Except.error ("Failed to resolve hostname: " ++ ip) ∧
    ("Failed to resolve hostname: " ++ ip) ≠ "Failed to pull data" ∧
    ("Failed to resolve hostname: " ++ ip) ≠ "Failed to expose data" := by
  refine ⟨?_, ?_, ?_, ?_⟩
  · simp [pull_data, hlib, hres]
  · simp [expose_data, hlib, hres]
  · intro h
    have h2 := congrArg String.length h
    rw [String.length_append] at h2
    have h3 : ("Failed to resolve hostname: " : String).length = 28 := rfl
    have h4 : ("Failed to pull data" : String).length = 19 := rfl
    omega
  · intro h
    have h2 := congrArg String.length h
    rw [String.length_append] at h2
    have h3 : ("Failed to resolve hostname: " : String).length = 28 := rfl
    have h4 : ("Failed to expose data" : String).length = 21 := rfl
    omega

/-- C6 witness: in an environment where no host resolves, pulling from
"nohost" raises the host-resolution error. -/
theorem c6_host_resolution_error_distinct_witness :
    pull_data envNoResolve 3 "nohost" 9999 [] 0 =
      Except.error ("Failed to resolve hostname: " ++ "nohost") :=
  (c6_host_resolution_error_distinct envNoResolve 3 "nohost" 9999 0 [] 0
    rfl rfl).1

/-- Whenever a pull against the 65536-byte `pull_to_file` buffer succeeds,
the resulting buffer still has exactly 65536 bytes. -/
theorem pull_data_ok_buffer_length (env : NativeEnv) (sockfd : Int)
    (ip : String) (port : Nat) (n : Nat) (buf : List Nat)
    (h : pull_data env sockfd ip port (List.replicate BUFFER_SIZE 0)
      BUFFER_SIZE = Except.ok (n, buf)) : buf.length = BUFFER_SIZE := by
  have hm : mock_data.length = 49 := rfl
  unfold pull_data at h
  split at h
  · simp only [Except.ok.injEq, Prod.mk.injEq] at h
    rw [← h.2, List.length_append, List.length_take, List.length_drop,
      List.length_replicate, hm]
    have hbs : BUFFER_SIZE = 65536 := rfl
    omega
  · split at h
    · cases h
    · split at h
      · cases h
      · simp only [Except.ok.injEq, Prod.mk.injEq] at h
        rw [← h.2, writeInPlace_length, List.length_replicate]

/-- C8: `Client.pull_to_file` performs a single pull into a fixed 65536-byte
buffer and writes exactly the returned number of received bytes, so the
written file is never larger than 65536 bytes regardless of the exposed
payload's size. -/
theorem c8_pull_to_file_single_pull_cap (env : NativeEnv) (sockfd : Int)
    (ip : String) (port : Nat) (n : Nat) (buf : List Nat)
    (h : pull_data env sockfd ip port (List.replicate BUFFER_SIZE 0)
      BUFFER_SIZE = Except.ok (n, buf)) :
    pull_to_file env sockfd ip port = Except.ok (buf.take n) ∧
    (buf.take n).length = min n BUFFER_SIZE ∧
    (buf.take n).length ≤ BUFFER_SIZE ∧
    (n ≤ BUFFER_SIZE → (buf.take n).length = n) := by
  have hb := pull_data_ok_buffer_length env sockfd ip port n buf h
  have hlen : (buf.take n).length = min n BUFFER_SIZE := by
    rw [List.length_take, hb]
  refine ⟨?_, hlen, ?_, fun hle => ?_⟩
  · unfold pull_to_file
    rw [h]
  · rw [hlen]
    omega
  · rw [hlen]
    omega

/-- C8 witness: in the mock environment the pull returns 49 bytes and the
written file holds exactly those 49 bytes, at most 65536. -/
theorem c8_pull_to_file_single_pull_cap_witness :
    pull_to_file envMock 1 "localhost" 9999 =
      Except.ok ((mock_data.take (min mock_data.length BUFFER_SIZE) ++
        (List.replicate BUFFER_SIZE 0).drop
          (min mock_data.length BUFFER_SIZE)).take
        (min mock_data.length BUFFER_SIZE)) ∧
    ((mock_data.take (min mock_data.length BUFFER_SIZE) ++
        (List.replicate BUFFER_SIZE 0).drop
          (min mock_data.length BUFFER_SIZE)).take
        (min mock_data.length BUFFER_SIZE)).length =
      min (min mock_data.length BUFFER_SIZE) BUFFER_SIZE :=
  ⟨(c8_pull_to_file_single_pull_cap envMock 1 "localhost" 9999
      (min mock_data.length BUFFER_SIZE)
      (mock_data.take (min mock_data.length BUFFER_SIZE) ++
        (List.replicate BUFFER_SIZE 0).drop
          (min mock_data.length BUFFER_SIZE)) rfl).1,
    (c8_pull_to_file_single_pull_cap envMock 1 "localhost" 9999
      (min mock_data.length BUFFER_SIZE)
      (mock_data.take (min mock_data.length BUFFER_SIZE) ++
        (List.replicate BUFFER_SIZE 0).drop
          (min mock_data.length BUFFER_SIZE)) rfl).2.1⟩

/-- C9: when the native library is not loaded, no modelled primitive raises:
`socket` returns the constant handle 1, `bind` returns without error for
every handle and port, and `pull_data` copies `min (length mock_data) size`
bytes of the fixed 49-byte mock HTML payload into the caller's buffer and
returns that count as success. -/
theorem c9_mock_mode_primitives (env : NativeEnv)
    (hlib : env.libLoaded = false) (sockfd : Int) (port : Nat) (ip : String)
    (buffer : List Nat) (size : Nat) :
    socket env = Except.ok 1 ∧
    bind env sockfd port = Except.ok () ∧
    mock_data.length = 49 ∧
    pull_data env sockfd ip port buffer size =
      Except.ok (min mock_data.length size,
        mock_data.take (min mock_data.length size) ++
          buffer.drop (min mock_data.length size)) := by
  refine ⟨?_, ?_, rfl, ?_⟩ <;> simp [socket, bind, pull_data, hlib]

/-- C9 witness: the mock primitives evaluated in the concrete mock
environment with an 8-byte buffer. -/
theorem c9_mock_mode_primitives_witness :
    socket envMock = Except.ok 1 ∧
    bind envMock 1 9999 = Except.ok () ∧
    mock_data.length = 49 ∧
    pull_data envMock 1 "localhost" 9999 (List.replicate 8 0) 8 =
      Except.ok (min mock_data.length 8,
        mock_data.take (min mock_data.length 8) ++
          (List.replicate 8 0).drop (min mock_data.length 8)) :=
  c9_mock_mode_primitives envMock rfl 1 9999 "localhost"
    (List.replicate 8 0) 8

/-- Concatenating the first `k` chunks of a payload recovers its first
`k * c` bytes. -/
theorem flatten_split_chunks (p : List Nat) (c : Nat) (k : Nat) :
    ((List.range k).map (fun i => (p.drop (i * c)).take c)).flatten =
      p.take (k * c) := by
  induction k with
  | zero => simp
  | succ k ih =>
    rw [List.range_succ, List.map_append, List.flatten_append, ih,
      Nat.succ_mul, List.take_add]
    simp

/-- A payload is no longer than its ceiling chunk count times the chunk
size. -/
theorem le_ceil_div_mul (n c : Nat) (hc : 0 < c) :
    n ≤ (n + c - 1) / c * c := by
  have h1 := Nat.div_add_mod (n + c - 1) c
  have h2 : (n + c - 1) % c < c := Nat.mod_lt _ hc
  have h3 : c * ((n + c - 1) / c) = (n + c - 1) / c * c := Nat.mul_comm _ _
  omega

/-- Splitting and flattening recovers the payload. -/
theorem flatten_split (p : List Nat) (c : Nat) (hc : 0 < c) :
    (split p c).flatten = p := by
  rw [split, flatten_split_chunks]
  exact List.take_of_length_le (le_ceil_div_mul p.length c hc)

/-- C2: for every non-empty payload and chunk size `C > 0`, reassembling the
chunk sequence produced by `split` against the corresponding Manifest yields
exactly the original payload, and the content hash recomputed from the
reassembled bytes equals the Manifest's `content_hash`. -/
theorem c2_split_reassemble_roundtrip (digest : List Nat → List Nat)
    (p : List Nat) (c : Nat) (hp : p ≠ []) (hc : 0 < c) :
    reassemble digest (split p c) (mkManifest digest p c) = Except.ok p ∧
    digest p = (mkManifest digest p c).content_hash := by
  have hflat : (split p c).flatten = p := flatten_split p c hc
  have hlen : (split p c).length = (p.length + c - 1) / c := by simp [split]
  constructor
  · simp [reassemble, mkManifest, hlen, hflat]
  · simp [mkManifest]

/-- C2 witness: splitting the 3-byte payload `[1, 2, 3]` into 2-byte chunks
and reassembling recovers it, under a concrete length-based digest. -/
theorem c2_split_reassemble_roundtrip_witness :
    ([1, 2, 3] : List Nat) ≠ [] ∧ 0 < 2 ∧
    reassemble (fun l => [l.length % 256]) (split [1, 2, 3] 2)
      (mkManifest (fun l => [l.length % 256]) [1, 2, 3] 2) =
      Except.ok [1, 2, 3] :=
  ⟨by decide, by decide,
    (c2_split_reassemble_roundtrip (fun l => [l.length % 256]) [1, 2, 3] 2
      (by decide) (by decide)).1⟩

end RGTP
